import Mathlib

/-!
Shallow embedding of the Flask-DB tutorial repository (parts 1, 2 and 4)
and verification of the frozen claims about it.

Part 4 (`src/part-4/app.py`) is a Book/Author REST API backed by an ORM;
we model its store as explicit lists of records plus auto-increment
counters and a clock, and each route handler as a pure function from the
request data and the store to a response and a new store.  Error
responses leave the store unchanged (uncommitted session changes are
rolled back at request teardown).

Part 2 (`src/part-2/app.py`) is a student CRUD app with HTML forms; we
model its handlers the same way, recording the redirect target and flash
message of each response.

Part 1 (`src/part-1/app.py`) is a single-table registry whose `/add`
route inserts one of five fixed sample students chosen by the current
row count modulo five.
-/

namespace FlaskDB

namespace Part4

/-- The `Book` model: columns of `class Book(db.Model)`.
`year` and `isbn` are nullable columns, hence `Option`; `created_at`
is an abstract timestamp. -/
structure Book where
  id : Nat
  title : String
  year : Option Int
  isbn : Option String
  created_at : Nat
  author_id : Nat
deriving Repr, DecidableEq

/-- The `Author` model: columns of `class Author(db.Model)`. -/
structure Author where
  id : Nat
  name : String
  city : String
deriving Repr, DecidableEq

/-- The database state of the part-4 app: the two tables in insertion
order, the auto-increment counters for their integer primary keys, and
the current clock used for `created_at` defaults. -/
structure Store where
  books : List Book
  authors : List Author
  nextBookId : Nat
  nextAuthorId : Nat
  now : Nat
deriving Repr, DecidableEq

/-- Model of `db.session.get(Book, id)`. -/
def findBook (s : Store) (id : Nat) : Option Book :=
  s.books.find? (fun b => b.id == id)

/-- Model of `db.session.get(Author, id)`. -/
def findAuthor (s : Store) (id : Nat) : Option Author :=
  s.authors.find? (fun a => a.id == id)

/-- Python truthiness of `data.get(key)` for a string-valued key:
absent (`None`) and the empty string are falsy. -/
def truthyStr : Option String → Bool
  | none => false
  | some t => t != ""

/-- Python truthiness of `data.get(key)` for an integer-valued key:
absent (`None`) and `0` are falsy. -/
def truthyNat : Option Nat → Bool
  | none => false
  | some n => n != 0

/-- Python truthiness for a parsed optional integer (`None` and `0`
are falsy). -/
def truthyInt : Option Int → Bool
  | none => false
  | some n => n != 0

/-- Whether `pre` is a prefix of `l`, on character lists. -/
def listPrefixEq : List Char → List Char → Bool
  | [], _ => true
  | _ :: _, [] => false
  | a :: as, b :: bs => a == b && listPrefixEq as bs

/-- Whether `needle` occurs as a contiguous sublist of the second list. -/
def listHasSub (needle : List Char) : List Char → Bool
  | [] => needle.isEmpty
  | b :: bs => listPrefixEq needle (b :: bs) || listHasSub needle bs

/-- ASCII lower-casing of one character, as Python's `str.lower` does
on the ASCII range used by this app. -/
def lowerChar (c : Char) : Char :=
  if 'A' ≤ c ∧ c ≤ 'Z' then Char.ofNat (c.toNat + 32) else c

/-- Python `s.lower()` on the ASCII range. -/
def strLower (s : String) : String := ⟨s.data.map lowerChar⟩

/-- SQL `column ILIKE '%needle%'`: case-insensitive substring match. -/
def ilikeContains (hay needle : String) : Bool :=
  listHasSub (strLower needle).data (strLower hay).data

/-- Model of `Book.to_dict()`: the JSON object serialized for a book, with the
referenced author's id and name resolved against the store
(`self.author_ref`). -/
structure BookDict where
  id : Nat
  title : String
  year : Option Int
  isbn : Option String
  author : Option (Nat × String)
  created_at : Nat
deriving Repr, DecidableEq

def bookToDict (s : Store) (b : Book) : BookDict :=
  { id := b.id
    title := b.title
    year := b.year
    isbn := b.isbn
    author := (s.authors.find? (fun a => a.id == b.author_id)).map (fun a => (a.id, a.name))
    created_at := b.created_at }

/-- Model of `Author.to_dict()` with `include_books=True`: the author's fields
plus the serialization of every book of the `books` relationship. -/
structure AuthorDict where
  id : Nat
  name : String
  city : String
  books : List BookDict
deriving Repr, DecidableEq

def authorToDict (s : Store) (a : Author) : AuthorDict :=
  { id := a.id
    name := a.name
    city := a.city
    books := (s.books.filter (fun b => b.author_id == a.id)).map (bookToDict s) }

/-- A JSON response from a book route: HTTP status, the serialized book
on success, the error string on failure. -/
structure BookResp where
  status : Nat
  book : Option BookDict
  error : Option String
deriving Repr, DecidableEq

/-- A JSON response from an author route. -/
structure AuthorResp where
  status : Nat
  author : Option AuthorDict
  error : Option String
deriving Repr, DecidableEq

/-- Route `GET /api/books/<id>` (`get_book`). -/
def get_book (id : Nat) (s : Store) : BookResp :=
  match findBook s id with
  | none => ⟨404, none, some "Book not found"⟩
  | some b => ⟨200, some (bookToDict s b), none⟩

/-- The JSON body of `POST /api/books`; `none` for the whole body models
a missing or empty JSON document (falsy `data`). -/
structure CreateBookBody where
  title : Option String
  author_id : Option Nat
  year : Option Int
  isbn : Option String
deriving Repr, DecidableEq

/-- The row `Book(title=..., year=..., isbn=..., author_id=...)` built
by `create_book`, with the id the storage engine assigns and the
`created_at` default evaluated at the current clock. -/
def newBookOf (d : CreateBookBody) (s : Store) : Book :=
  { id := s.nextBookId
    title := d.title.getD ""
    year := d.year
    isbn := d.isbn
    created_at := s.now
    author_id := d.author_id.getD 0 }

/-- The store after `db.session.add(new_book); db.session.commit()`. -/
def storeAfterCreateBook (d : CreateBookBody) (s : Store) : Store :=
  { s with books := s.books ++ [newBookOf d s], nextBookId := s.nextBookId + 1 }

/-- Route `POST /api/books` (`create_book`): validates presence of `title` and
`author_id` (Python truthiness), resolves the author, rejects a truthy
duplicate `isbn`, then inserts the book and returns 201. -/
def create_book (data : Option CreateBookBody) (s : Store) : BookResp × Store :=
  match data with
  | none => (⟨400, none, some "No data provided"⟩, s)
  | some d =>
    if !truthyStr d.title || !truthyNat d.author_id then
      (⟨400, none, some "Title and author_id are required"⟩, s)
    else
      match findAuthor s (d.author_id.getD 0) with
      | none => (⟨404, none, some "Author not found"⟩, s)
      | some _ =>
        if truthyStr d.isbn && (s.books.any (fun b => b.isbn == d.isbn)) then
          (⟨400, none, some "ISBN already exists"⟩, s)
        else
          (⟨201, some (bookToDict (storeAfterCreateBook d s) (newBookOf d s)), none⟩,
           storeAfterCreateBook d s)

/-- The JSON body of `PUT /api/books/<id>`: each field is present or
absent; for the nullable columns a present field may itself carry `null`. -/
structure UpdateBookBody where
  title : Option String
  author_id : Option Nat
  year : Option (Option Int)
  isbn : Option (Option String)
deriving Repr, DecidableEq

/-- The `if "title" in data:` assignment of `update_book`. -/
def applyTitle (d : UpdateBookBody) (b : Book) : Book :=
  match d.title with
  | some t => { b with title := t }
  | none => b

/-- The `if "author_id" in data:` assignment of `update_book` (the
existence check on the new author happens in the handler before this
assignment is committed). -/
def applyAuthorId (d : UpdateBookBody) (b : Book) : Book :=
  match d.author_id with
  | some a => { b with author_id := a }
  | none => b

/-- The `if "year" in data:` and `if "isbn" in data:` assignments of
`update_book`. -/
def applyYearIsbn (d : UpdateBookBody) (b : Book) : Book :=
  let b1 := match d.year with
    | some y => { b with year := y }
    | none => b
  match d.isbn with
  | some i => { b1 with isbn := i }
  | none => b1

/-- The whole field-assignment sequence of `update_book`: only the
fields present in the body are overwritten. -/
def appliedBook (d : UpdateBookBody) (b : Book) : Book :=
  applyYearIsbn d (applyAuthorId d (applyTitle d b))

/-- Route `PUT /api/books/<id>` (`update_book`): 404 on a missing book, 400 on
a falsy body, otherwise assigns only the supplied fields, re-validating
a supplied `author_id` (404, with the uncommitted assignments rolled
back at request teardown, when that author does not exist), and commits
the updated row. -/
def update_book (id : Nat) (data : Option UpdateBookBody) (s : Store) : BookResp × Store :=
  match findBook s id with
  | none => (⟨404, none, some "Book not found"⟩, s)
  | some book =>
    match data with
    | none => (⟨400, none, some "No data provided"⟩, s)
    | some d =>
      match d.author_id with
      | some a =>
        match findAuthor s a with
        | none => (⟨404, none, some "Author not found"⟩, s)
        | some _ =>
          let book2 := appliedBook d book
          let s2 : Store :=
            { s with books := s.books.map (fun x => if x.id == id then book2 else x) }
          (⟨200, some (bookToDict s2 book2), none⟩, s2)
      | none =>
        let book2 := appliedBook d book
        let s2 : Store :=
          { s with books := s.books.map (fun x => if x.id == id then book2 else x) }
        (⟨200, some (bookToDict s2 book2), none⟩, s2)

/-- Route `DELETE /api/books/<id>` (`delete_book`). -/
def delete_book (id : Nat) (s : Store) : BookResp × Store :=
  match findBook s id with
  | none => (⟨404, none, some "Book not found"⟩, s)
  | some _ =>
    (⟨200, none, none⟩, { s with books := s.books.filter (fun b => b.id != id) })

/-- Route `GET /api/authors/<id>` (`get_author`). -/
def get_author (id : Nat) (s : Store) : AuthorResp :=
  match findAuthor s id with
  | none => ⟨404, none, some "Author not found"⟩
  | some a => ⟨200, some (authorToDict s a), none⟩

/-- The JSON body of `POST /api/authors`. -/
structure CreateAuthorBody where
  name : Option String
  city : Option String
deriving Repr, DecidableEq

/-- The row `Author(name=..., city=...)` built by `create_author`, with
the id the storage engine assigns. -/
def newAuthorOf (d : CreateAuthorBody) (s : Store) : Author :=
  { id := s.nextAuthorId, name := d.name.getD "", city := d.city.getD "" }

/-- The store after `db.session.add(new_author); db.session.commit()`. -/
def storeAfterCreateAuthor (d : CreateAuthorBody) (s : Store) : Store :=
  { s with authors := s.authors ++ [newAuthorOf d s], nextAuthorId := s.nextAuthorId + 1 }

/-- Route `POST /api/authors` (`create_author`). -/
def create_author (data : Option CreateAuthorBody) (s : Store) : AuthorResp × Store :=
  match data with
  | none => (⟨400, none, some "No data provided"⟩, s)
  | some d =>
    if !truthyStr d.name || !truthyStr d.city then
      (⟨400, none, some "Name and city are required"⟩, s)
    else
      if (s.authors.any (fun a => a.name == d.name.getD "")) then
        (⟨400, none, some "Author already exists"⟩, s)
      else
        (⟨201, some (authorToDict (storeAfterCreateAuthor d s) (newAuthorOf d s)), none⟩,
         storeAfterCreateAuthor d s)

/-- The JSON body of `PUT /api/authors/<id>`. -/
structure UpdateAuthorBody where
  name : Option String
  city : Option String
deriving Repr, DecidableEq

/-- Route `PUT /api/authors/<id>` (`update_author`). -/
def update_author (id : Nat) (data : Option UpdateAuthorBody) (s : Store) : AuthorResp × Store :=
  match findAuthor s id with
  | none => (⟨404, none, some "Author not found"⟩, s)
  | some a =>
    match data with
    | none => (⟨400, none, some "No data provided"⟩, s)
    | some d =>
      let a1 := match d.name with
        | some n => { a with name := n }
        | none => a
      let a2 := match d.city with
        | some c => { a1 with city := c }
        | none => a1
      let s2 : Store :=
        { s with authors := s.authors.map (fun x => if x.id == id then a2 else x) }
      (⟨200, some (authorToDict s2 a2), none⟩, s2)

/-- Route `DELETE /api/authors/<id>` (`delete_author`): the `books`
relationship is declared with `cascade="all, delete-orphan"`, so
deleting the author also deletes every book whose `author_id` is its id. -/
def delete_author (id : Nat) (s : Store) : AuthorResp × Store :=
  match findAuthor s id with
  | none => (⟨404, none, some "Author not found"⟩, s)
  | some _ =>
    (⟨200, none, none⟩,
      { s with
        authors := s.authors.filter (fun a => a.id != id)
        books := s.books.filter (fun b => b.author_id != id) })

/-- Route `GET /api/books/search` (`search_books`): optional case-insensitive
title substring (`q`), author-name substring (`author`, via a join on
the author table), and exact `year` filters; each is applied only when
its parsed query value is truthy. -/
def search_books (q author : Option String) (year : Option Int) (s : Store) : List Book :=
  let r1 := s.books
  let r2 := if truthyStr q then r1.filter (fun b => ilikeContains b.title (q.getD "")) else r1
  let r3 :=
    if truthyStr author then
      r2.filter (fun b =>
        match s.authors.find? (fun a => a.id == b.author_id) with
        | some a => ilikeContains a.name (author.getD "")
        | none => false)
    else r2
  if truthyInt year then r3.filter (fun b => b.year == year) else r3

/-- Insert one element into a list, before the first element it is
`le`-below; used to model the deterministic order a SQL `ORDER BY`
returns. -/
def insertAsc {α : Type} (le : α → α → Bool) (b : α) : List α → List α
  | [] => [b]
  | x :: xs => if le b x then b :: x :: xs else x :: insertAsc le b xs

/-- Insertion sort by a boolean comparison: the model of `ORDER BY`. -/
def sortBy {α : Type} (le : α → α → Bool) : List α → List α
  | [] => []
  | x :: xs => insertAsc le x (sortBy le xs)

/-- The whitelisted sort columns of `GET /api/books/sorted`. -/
inductive SortCol where
  | colId
  | colTitle
  | colYear
  | colIsbn
  | colCreatedAt
deriving Repr, DecidableEq

/-- SQL `ORDER BY <column> ASC` on a nullable column: SQL NULLs sort first. -/
def optLe {α : Type} (le : α → α → Bool) : Option α → Option α → Bool
  | none, _ => true
  | some _, none => false
  | some x, some y => le x y

/-- The ascending comparison of each whitelisted column. -/
def colLe : SortCol → Book → Book → Bool
  | .colId, a, b => a.id ≤ b.id
  | .colTitle, a, b => a.title ≤ b.title
  | .colYear, a, b => optLe (fun x y : Int => x ≤ y) a.year b.year
  | .colIsbn, a, b => optLe (fun x y : String => x ≤ y) a.isbn b.isbn
  | .colCreatedAt, a, b => a.created_at ≤ b.created_at

/-- The `allowed_sorts` whitelist dictionary of `get_books_sorted`. -/
def allowed_sorts (field : String) : Option SortCol :=
  if field == "id" then some .colId
  else if field == "title" then some .colTitle
  else if field == "year" then some .colYear
  else if field == "isbn" then some .colIsbn
  else if field == "created_at" then some .colCreatedAt
  else none

/-- Route `GET /api/books/sorted` (`get_books_sorted`): looks the `sort`
parameter up in the whitelist with `Book.id` as the fallback column,
then orders ascending, or descending when `order` lowercases to
`"desc"`.  Returns the ordered book list of the response. -/
def get_books_sorted (sort order : Option String) (s : Store) : List Book :=
  let sortField := sort.getD "id"
  let ord := order.getD "asc"
  let col := (allowed_sorts sortField).getD .colId
  if strLower ord == "desc" then
    sortBy (fun a b => colLe col b a) s.books
  else
    sortBy (fun a b => colLe col a b) s.books

/-- The adjusted page number used by `paginate(..., error_out=False)`:
a page below 1 becomes 1. -/
def effPage (page : Option Int) : Nat :=
  let p : Int := page.getD 1
  if p < 1 then 1 else p.toNat

/-- The effective page size: the handler clamps `per_page` (default 5)
to at most 100, and `paginate(..., error_out=False)` replaces a value
below 1 by its default of 20. -/
def effPerPage (per_page : Option Int) : Nat :=
  let pp : Int := min (per_page.getD 5) 100
  if pp < 1 then 20 else pp.toNat

/-- The JSON response of `GET /api/books/paginated`: the handler echoes
the raw defaulted `page` and the clamped `per_page`, and copies the
totals and flags from the pagination object. -/
structure PaginatedResp where
  page : Int
  per_page : Int
  total_items : Nat
  total_pages : Nat
  has_next : Bool
  has_prev : Bool
  books : List BookDict
deriving Repr, DecidableEq

/-- Route `GET /api/books/paginated` (`get_books_paginated`): orders the books
by id ascending and returns the requested page slice. -/
def get_books_paginated (page per_page : Option Int) (s : Store) : PaginatedResp :=
  let p : Int := page.getD 1
  let pp : Int := min (per_page.getD 5) 100
  let eP := effPage page
  let ePP := effPerPage per_page
  let ordered := sortBy (fun a b : Book => a.id ≤ b.id) s.books
  let total := s.books.length
  let pages := (total + ePP - 1) / ePP
  { page := p
    per_page := pp
    total_items := total
    total_pages := pages
    has_next := decide (eP < pages)
    has_prev := decide (1 < eP)
    books := ((ordered.drop ((eP - 1) * ePP)).take ePP).map (bookToDict s) }

end Part4

namespace Part2

/-- A row of the part-2 `students` table. -/
structure Student where
  id : Nat
  name : String
  email : String
  course : String
deriving Repr, DecidableEq

/-- The part-2 database: the students in insertion order and the
auto-increment counter. -/
structure Store where
  students : List Student
  nextId : Nat
deriving Repr, DecidableEq

/-- A part-2 HTML response: a redirect (302) with its `url_for` target
and flash message `(text, category)`, or a rendered page (200). -/
structure Resp where
  status : Nat
  flash : Option (String × String)
  redirectTo : Option String
deriving Repr, DecidableEq

/-- Route `POST /add` (`add_student`): checks for an existing student with the
same email; on a hit flashes and redirects back to the form, otherwise
inserts the row and redirects to the index. -/
def add_student (name email course : String) (s : Store) : Resp × Store :=
  match s.students.find? (fun st => st.email == email) with
  | some _ => (⟨302, some ("Email already exists!", "danger"), some "add_student"⟩, s)
  | none =>
    (⟨302, some ("Student added successfully!", "success"), some "index"⟩,
      { students := s.students ++ [⟨s.nextId, name, email, course⟩]
        nextId := s.nextId + 1 })

/-- Route `POST /edit/<id>` (`edit_student`, POST branch): runs
`UPDATE students SET ... WHERE id = ?` (affecting zero rows when the id
is absent), flashes, and redirects to the index unconditionally. -/
def edit_student_post (id : Nat) (name email course : String) (s : Store) : Resp × Store :=
  (⟨302, some ("Student updated successfully!", "success"), some "index"⟩,
    { s with students := s.students.map (fun st =>
        if st.id == id then { st with name := name, email := email, course := course }
        else st) })

/-- Route `GET /edit/<id>` (`edit_student`, GET branch): renders `edit.html`
with the fetched row (possibly `None`); the handler always answers 200. -/
def edit_student_get (id : Nat) (s : Store) : Nat × Option Student :=
  (200, s.students.find? (fun st => st.id == id))

/-- Route `GET /delete/<id>` (`delete_student`): runs
`DELETE FROM students WHERE id = ?`, flashes "Student deleted!", and
redirects to the index unconditionally. -/
def delete_student (id : Nat) (s : Store) : Resp × Store :=
  (⟨302, some ("Student deleted!", "danger"), some "index"⟩,
    { s with students := s.students.filter (fun st => st.id != id) })

end Part2

namespace Part1

/-- A row of the part-1 `students` table (the id column plays no role
in the `/add` logic, which only counts rows). -/
structure Row where
  name : String
  email : String
  course : String
deriving Repr, DecidableEq

/-- The five fixed sample students of `add_sample_student`. -/
def sample_students : List (String × String × String) :=
  [("Student 1", "student1@example.com", "Flask + Databases"),
   ("Student 2", "student2@example.com", "Python for Beginners"),
   ("Student 3", "student3@example.com", "Web Development with HTML/CSS"),
   ("Student 4", "student4@example.com", "APIs with Flask"),
   ("Student 5", "student5@example.com", "Intro to Data Science")]

/-- The sample chosen for a given existing row count, as a `Row`. -/
def sampleRow (count : Nat) : Row :=
  let t := sample_students.getD (count % sample_students.length) ("", "", "")
  ⟨t.1, t.2.1, t.2.2⟩

/-- Route `GET /add` (`add_sample_student`): counts the existing rows, picks
`sample_students[count % 5]`, inserts it, and returns the fixed
confirmation page. -/
def add_sample_student (rows : List Row) : List Row × String :=
  let existing_students_count := rows.length
  let next_student := sampleRow existing_students_count
  (rows ++ [next_student],
   "Sample student added! <a href=\x22/\x22>Go back to home</a>")

end Part1

end FlaskDB

open FlaskDB

/-- An author for concrete test stores (first sample author of `init_db`). -/
def demoAuthor : Part4.Author := ⟨1, "Eric Matthes", "New York"⟩

/-- A part-4 store with one author and no books. -/
def demoStore : Part4.Store := ⟨[], [demoAuthor], 1, 2, 0⟩

/-- Two books of the demo author, ids 1 and 2. -/
def demoBook1 : Part4.Book := ⟨1, "Python Crash Course", some 2019, some "978-1593279288", 0, 1⟩

def demoBook2 : Part4.Book := ⟨2, "Flask Web Development", some 2018, some "978-1491991732", 1, 1⟩

/-- A part-4 store with one author and two books. -/
def demoStore2 : Part4.Store := ⟨[demoBook1, demoBook2], [demoAuthor], 3, 2, 5⟩

/-- A part-2 store with one student. -/
def demoP2Store : Part2.Store := ⟨[⟨1, "Alice", "a@b.com", "Math"⟩], 2⟩

/-! ## Helper lemmas about the `ORDER BY` model -/

theorem mem_insertAsc {α : Type} (le : α → α → Bool) (b : α) (l : List α) (y : α) :
    y ∈ Part4.insertAsc le b l ↔ y = b ∨ y ∈ l := by
  induction l with
  | nil => simp [Part4.insertAsc]
  | cons x xs ih =>
    by_cases h : le b x = true
    · simp [Part4.insertAsc, h]
    · simp only [Part4.insertAsc, if_neg h, List.mem_cons, ih]
      tauto

theorem insertAsc_perm {α : Type} (le : α → α → Bool) (b : α) (l : List α) :
    (Part4.insertAsc le b l).Perm (b :: l) := by
  induction l with
  | nil => simp [Part4.insertAsc]
  | cons x xs ih =>
    by_cases h : le b x = true
    · simp [Part4.insertAsc, h]
    · rw [Part4.insertAsc, if_neg h]
      exact (ih.cons x).trans (List.Perm.swap b x xs)

theorem sortBy_perm {α : Type} (le : α → α → Bool) (l : List α) :
    (Part4.sortBy le l).Perm l := by
  induction l with
  | nil => simp [Part4.sortBy]
  | cons x xs ih =>
    exact (insertAsc_perm le x (Part4.sortBy le xs)).trans (ih.cons x)

theorem pairwise_insertAsc {α : Type} (le : α → α → Bool)
    (htrans : ∀ a b c, le a b = true → le b c = true → le a c = true)
    (htot : ∀ a b, le a b = true ∨ le b a = true)
    (b : α) (l : List α)
    (hl : l.Pairwise (fun x y => le x y = true)) :
    (Part4.insertAsc le b l).Pairwise (fun x y => le x y = true) := by
  induction l with
  | nil => simp [Part4.insertAsc]
  | cons x xs ih =>
    rw [List.pairwise_cons] at hl
    obtain ⟨hx, hxs⟩ := hl
    by_cases h : le b x = true
    · rw [Part4.insertAsc, if_pos h]
      refine List.pairwise_cons.mpr ⟨?_, List.pairwise_cons.mpr ⟨hx, hxs⟩⟩
      intro y hy
      rcases List.mem_cons.mp hy with rfl | hy
      · exact h
      · exact htrans b x y h (hx y hy)
    · rw [Part4.insertAsc, if_neg h]
      refine List.pairwise_cons.mpr ⟨?_, ih hxs⟩
      intro y hy
      rcases (mem_insertAsc le b xs y).mp hy with heq | hy
      · rw [heq]
        rcases htot b x with hbx | hxb
        · exact absurd hbx h
        · exact hxb
      · exact hx y hy

theorem pairwise_sortBy {α : Type} (le : α → α → Bool)
    (htrans : ∀ a b c, le a b = true → le b c = true → le a c = true)
    (htot : ∀ a b, le a b = true ∨ le b a = true)
    (l : List α) :
    (Part4.sortBy le l).Pairwise (fun x y => le x y = true) := by
  induction l with
  | nil => simp [Part4.sortBy]
  | cons x xs ih =>
    exact pairwise_insertAsc le htrans htot x (Part4.sortBy le xs) ih

/-! ## Claims -/

/-- C9: for `GET /api/books/search`, a `year` query value that parses to
`0` (and likewise one that fails to parse, which `type=int` turns into
`None`) is falsy, so the year filter is skipped and the search behaves
exactly as if the parameter were absent; with no other filters every
book is returned. -/
theorem c9_search_year_zero_no_filter (s : Part4.Store) (q a : Option String) :
    Part4.search_books q a (some 0) s = Part4.search_books q a none s
    ∧ Part4.search_books none none (some 0) s = s.books := by
  constructor
  · rfl
  · rfl

/-- C10: every request to the part-1 `/add` route inserts exactly one
row, leaving the existing rows in place, and the inserted row is the
sample at index `count % 5` of the fixed five-sample list — fully
determined by the current row count, cycling through the samples. -/
theorem c10_add_sample_student (rows : List Part1.Row) :
    (Part1.add_sample_student rows).1.length = rows.length + 1
    ∧ (Part1.add_sample_student rows).1.take rows.length = rows
    ∧ (Part1.add_sample_student rows).1.getLast? = some (Part1.sampleRow (rows.length % 5))
    ∧ ∀ rows2 : List Part1.Row, rows2.length % 5 = rows.length % 5 →
        (Part1.add_sample_student rows2).1.getLast?
          = (Part1.add_sample_student rows).1.getLast? := by
  have hlen : Part1.sample_students.length = 5 := rfl
  have hrow : ∀ c : Nat, Part1.sampleRow c = Part1.sampleRow (c % 5) := by
    intro c
    have hm : c % Part1.sample_students.length = c % 5 % Part1.sample_students.length := by
      rw [hlen]
      omega
    simp only [Part1.sampleRow]
    rw [hm]
  refine ⟨?_, ?_, ?_, ?_⟩
  · simp [Part1.add_sample_student]
  · simp [Part1.add_sample_student]
  · rw [Part1.add_sample_student, List.getLast?_concat, hrow]
  · intro rows2 h
    rw [Part1.add_sample_student, List.getLast?_concat,
        Part1.add_sample_student, List.getLast?_concat,
        hrow rows2.length, hrow rows.length, h]

/-- Witness for C10 at two concrete stores whose sizes agree mod 5. -/
theorem c10_witness :
    ([Part1.sampleRow 0, Part1.sampleRow 1, Part1.sampleRow 2,
      Part1.sampleRow 3, Part1.sampleRow 4].length % 5 = ([] : List Part1.Row).length % 5)
    ∧ (Part1.add_sample_student
        [Part1.sampleRow 0, Part1.sampleRow 1, Part1.sampleRow 2,
         Part1.sampleRow 3, Part1.sampleRow 4]).1.getLast?
        = (Part1.add_sample_student []).1.getLast? :=
  ⟨by decide,
   (c10_add_sample_student []).2.2.2
     [Part1.sampleRow 0, Part1.sampleRow 1, Part1.sampleRow 2,
      Part1.sampleRow 3, Part1.sampleRow 4] (by decide)⟩

/-- C8: submitting the part-2 add-student form with the email of an
existing student inserts nothing, flashes "Email already exists!", and
redirects back to the add form; a fresh email inserts exactly one row
and redirects to the index. -/
theorem c8_add_student (s : Part2.Store) (nm em co : String) :
    ((s.students.find? (fun st => st.email == em)).isSome →
      Part2.add_student nm em co s
        = (⟨302, some ("Email already exists!", "danger"), some "add_student"⟩, s))
    ∧ (s.students.find? (fun st => st.email == em) = none →
      Part2.add_student nm em co s
        = (⟨302, some ("Student added successfully!", "success"), some "index"⟩,
           ⟨s.students ++ [⟨s.nextId, nm, em, co⟩], s.nextId + 1⟩)) := by
  constructor
  · intro h
    obtain ⟨st, hst⟩ := Option.isSome_iff_exists.mp h
    simp [Part2.add_student, hst]
  · intro h
    simp [Part2.add_student, h]

/-- Witness for C8: a duplicate and a fresh email on a concrete store. -/
theorem c8_witness :
    ((demoP2Store.students.find? (fun st => st.email == "a@b.com")).isSome = true
      ∧ Part2.add_student "Bob" "a@b.com" "Sci" demoP2Store
          = (⟨302, some ("Email already exists!", "danger"), some "add_student"⟩, demoP2Store))
    ∧ (demoP2Store.students.find? (fun st => st.email == "b@b.com") = none
      ∧ Part2.add_student "Bob" "b@b.com" "Sci" demoP2Store
          = (⟨302, some ("Student added successfully!", "success"), some "index"⟩,
             ⟨demoP2Store.students ++ [⟨2, "Bob", "b@b.com", "Sci"⟩], 3⟩)) :=
  ⟨⟨by decide, (c8_add_student demoP2Store "Bob" "a@b.com" "Sci").1 (by decide)⟩,
   ⟨by decide, (c8_add_student demoP2Store "Bob" "b@b.com" "Sci").2 (by decide)⟩⟩

/-- C5: deleting an existing author cascades to its books: afterwards no
book referencing the author remains, the surviving books are exactly
those of other authors (in order), and the route answers 200. -/
theorem c5_delete_author_cascades (s : Part4.Store) (id : Nat)
    (h : (Part4.findAuthor s id).isSome) :
    (∀ b ∈ (Part4.delete_author id s).2.books, b.author_id ≠ id)
    ∧ (Part4.delete_author id s).2.books = s.books.filter (fun b => b.author_id != id)
    ∧ (∀ b ∈ s.books, b.author_id ≠ id → b ∈ (Part4.delete_author id s).2.books)
    ∧ (Part4.delete_author id s).1.status = 200 := by
  obtain ⟨a, ha⟩ := Option.isSome_iff_exists.mp h
  have hd : Part4.delete_author id s
      = (⟨200, none, none⟩,
         { s with
           authors := s.authors.filter (fun a => a.id != id)
           books := s.books.filter (fun b => b.author_id != id) }) := by
    simp [Part4.delete_author, ha]
  rw [hd]
  refine ⟨?_, rfl, ?_, rfl⟩
  · intro b hb
    have := (List.mem_filter.mp hb).2
    simpa using this
  · intro b hb hne
    exact List.mem_filter.mpr ⟨hb, by simpa using hne⟩

/-- Witness for C5: deleting the demo author removes both demo books. -/
theorem c5_witness :
    (Part4.findAuthor demoStore2 1).isSome = true
    ∧ (Part4.delete_author 1 demoStore2).2.books
        = demoStore2.books.filter (fun b => b.author_id != 1) :=
  ⟨by decide, (c5_delete_author_cascades demoStore2 1 (by decide)).2.1⟩

/-- C7 counterexample: the part-2 delete route on an id with no record
answers a 302 redirect with a "Student deleted!" flash, not the 404 the
claim asserts for every by-id operation. -/
theorem c7_counterexample :
    (Part2.delete_student 1 ⟨[], 1⟩).1.status = 302
    ∧ (Part2.delete_student 1 ⟨[], 1⟩).1.status ≠ 404
    ∧ (Part2.delete_student 1 ⟨[], 1⟩).1.flash = some ("Student deleted!", "danger")
    ∧ (Part2.delete_student 1 ⟨[], 1⟩).2 = ⟨[], 1⟩ := by
  decide

/-- C7 amended: the API's by-id get/update/delete routes for books and
authors answer 404 on an unknown id; the student app's delete and edit
routes do not — delete and the edit POST branch redirect (302)
unconditionally and the edit GET branch renders a page (200). -/
theorem c7_api_404_students_redirect (s : Part4.Store) (id : Nat)
    (p2 : Part2.Store) (d : Part4.UpdateBookBody) (ad : Part4.UpdateAuthorBody)
    (nm em co : String) :
    (Part4.findBook s id = none →
      (Part4.get_book id s).status = 404
      ∧ (Part4.update_book id (some d) s).1.status = 404
      ∧ (Part4.delete_book id s).1.status = 404)
    ∧ (Part4.findAuthor s id = none →
      (Part4.get_author id s).status = 404
      ∧ (Part4.update_author id (some ad) s).1.status = 404
      ∧ (Part4.delete_author id s).1.status = 404)
    ∧ (Part2.delete_student id p2).1.status = 302
    ∧ (Part2.edit_student_post id nm em co p2).1.status = 302
    ∧ (Part2.edit_student_get id p2).1 = 200 := by
  refine ⟨?_, ?_, rfl, rfl, rfl⟩
  · intro h
    refine ⟨?_, ?_, ?_⟩ <;>
      simp [Part4.get_book, Part4.update_book, Part4.delete_book, h]
  · intro h
    refine ⟨?_, ?_, ?_⟩ <;>
      simp [Part4.get_author, Part4.update_author, Part4.delete_author, h]

/-- Witness for C7 (amended) at a concrete store and unknown id 99. -/
theorem c7_witness :
    (Part4.findBook demoStore2 99 = none
      ∧ (Part4.get_book 99 demoStore2).status = 404
      ∧ (Part4.update_book 99 (some ⟨none, none, none, none⟩) demoStore2).1.status = 404
      ∧ (Part4.delete_book 99 demoStore2).1.status = 404)
    ∧ (Part4.findAuthor demoStore2 99 = none
      ∧ (Part4.get_author 99 demoStore2).status = 404
      ∧ (Part4.update_author 99 (some ⟨none, none⟩) demoStore2).1.status = 404
      ∧ (Part4.delete_author 99 demoStore2).1.status = 404) :=
  ⟨⟨by decide,
    (c7_api_404_students_redirect demoStore2 99 ⟨[], 1⟩ ⟨none, none, none, none⟩
      ⟨none, none⟩ "" "" "").1 (by decide)⟩,
   ⟨by decide,
    (c7_api_404_students_redirect demoStore2 99 ⟨[], 1⟩ ⟨none, none, none, none⟩
      ⟨none, none⟩ "" "" "").2.1 (by decide)⟩⟩

/-- C1 counterexample: a well-formed body naming a nonexistent
`author_id` is answered with 404 ("Author not found"), not the 400 the
claim asserts; no book is created. -/
theorem c1_counterexample :
    (Part4.create_book (some ⟨some "T", some 2, none, none⟩) demoStore).1.status = 404
    ∧ (Part4.create_book (some ⟨some "T", some 2, none, none⟩) demoStore).1.status ≠ 400
    ∧ (Part4.create_book (some ⟨some "T", some 2, none, none⟩) demoStore).2 = demoStore := by
  decide

/-- C1 amended: for `POST /api/books`, a missing/empty body or a
missing (falsy) `title` or `author_id` yields 400 with no book created;
an `author_id` naming no existing author yields 404 (not 400) with no
book created; a non-empty `isbn` already held by a book yields 400 with
no book created; otherwise the book is created with the submitted
fields and returned with status 201. -/
theorem c1_create_book (d : Part4.CreateBookBody) (s : Part4.Store) :
    Part4.create_book none s = (⟨400, none, some "No data provided"⟩, s)
    ∧ ((Part4.truthyStr d.title = false ∨ Part4.truthyNat d.author_id = false) →
        Part4.create_book (some d) s
          = (⟨400, none, some "Title and author_id are required"⟩, s))
    ∧ (Part4.truthyStr d.title = true → Part4.truthyNat d.author_id = true →
        Part4.findAuthor s (d.author_id.getD 0) = none →
        Part4.create_book (some d) s = (⟨404, none, some "Author not found"⟩, s))
    ∧ (Part4.truthyStr d.title = true → Part4.truthyNat d.author_id = true →
        (Part4.findAuthor s (d.author_id.getD 0)).isSome = true →
        Part4.truthyStr d.isbn = true →
        s.books.any (fun b => b.isbn == d.isbn) = true →
        Part4.create_book (some d) s = (⟨400, none, some "ISBN already exists"⟩, s))
    ∧ (Part4.truthyStr d.title = true → Part4.truthyNat d.author_id = true →
        (Part4.findAuthor s (d.author_id.getD 0)).isSome = true →
        (Part4.truthyStr d.isbn = true → s.books.any (fun b => b.isbn == d.isbn) = false) →
        (Part4.create_book (some d) s).1.status = 201
        ∧ (Part4.create_book (some d) s).2.books
            = s.books
              ++ [⟨s.nextBookId, d.title.getD "", d.year, d.isbn, s.now, d.author_id.getD 0⟩]
        ∧ (Part4.create_book (some d) s).1.book
            = some (Part4.bookToDict (Part4.create_book (some d) s).2
                ⟨s.nextBookId, d.title.getD "", d.year, d.isbn, s.now, d.author_id.getD 0⟩)) := by
  refine ⟨rfl, ?_, ?_, ?_, ?_⟩
  · intro h
    rcases h with h | h <;> simp [Part4.create_book, h]
  · intro hT hA hNone
    simp [Part4.create_book, hT, hA, hNone]
  · intro hT hA hSome hI hDup
    obtain ⟨a, ha⟩ := Option.isSome_iff_exists.mp hSome
    simp [Part4.create_book, hT, hA, ha, hI, hDup]
  · intro hT hA hSome hNoDup
    obtain ⟨a, ha⟩ := Option.isSome_iff_exists.mp hSome
    by_cases hI : Part4.truthyStr d.isbn = true
    · have hAny := hNoDup hI
      refine ⟨?_, ?_, ?_⟩ <;>
        simp [Part4.create_book, Part4.storeAfterCreateBook, Part4.newBookOf,
          hT, hA, ha, hI, hAny]
    · have hI2 : Part4.truthyStr d.isbn = false := by
        cases h : Part4.truthyStr d.isbn
        · rfl
        · exact absurd h hI
      refine ⟨?_, ?_, ?_⟩ <;>
        simp [Part4.create_book, Part4.storeAfterCreateBook, Part4.newBookOf,
          hT, hA, ha, hI2]

/-- Witness for C1 (amended): a successful creation and a
missing-title rejection at concrete inputs. -/
theorem c1_witness :
    ((Part4.create_book (some ⟨some "T", some 1, some 2020, some "X"⟩) demoStore).1.status = 201
      ∧ (Part4.create_book (some ⟨some "T", some 1, some 2020, some "X"⟩) demoStore).2.books
          = demoStore.books ++ [⟨1, "T", some 2020, some "X", 0, 1⟩])
    ∧ Part4.create_book (some ⟨none, some 1, none, none⟩) demoStore
       = (⟨400, none, some "Title and author_id are required"⟩, demoStore) :=
  ⟨⟨((c1_create_book ⟨some "T", some 1, some 2020, some "X"⟩ demoStore).2.2.2.2
      (by decide) (by decide) (by decide) (by decide)).1,
    ((c1_create_book ⟨some "T", some 1, some 2020, some "X"⟩ demoStore).2.2.2.2
      (by decide) (by decide) (by decide) (by decide)).2.1⟩,
   (c1_create_book ⟨none, some 1, none, none⟩ demoStore).2.1 (Or.inl (by decide))⟩

/-- C2 counterexample: with the unrecognized sort field `foo` and
`order=desc`, the books come back ordered by id descending, not
ascending as the claim asserts for every value of `order`. -/
theorem c2_counterexample :
    (Part4.get_books_sorted (some "foo") (some "desc") demoStore2).map Part4.Book.id = [2, 1]
    ∧ (Part4.get_books_sorted (some "foo") (some "desc") demoStore2).map Part4.Book.id
        ≠ [1, 2] := by
  decide

/-- C2 amended: when the `sort` parameter is not in the whitelist, the
route falls back to ordering by `id`, but the direction still follows
`order`: ascending unless `order` lowercases to `desc`, in which case
descending; in both cases the result is a permutation of the books. -/
theorem c2_sorted_fallback (s : Part4.Store) (sf ord : String)
    (h : Part4.allowed_sorts sf = none) :
    (Part4.strLower ord ≠ "desc" →
      (Part4.get_books_sorted (some sf) (some ord) s).Pairwise (fun a b => a.id ≤ b.id)
      ∧ (Part4.get_books_sorted (some sf) (some ord) s).Perm s.books)
    ∧ (Part4.strLower ord = "desc" →
      (Part4.get_books_sorted (some sf) (some ord) s).Pairwise (fun a b => b.id ≤ a.id)
      ∧ (Part4.get_books_sorted (some sf) (some ord) s).Perm s.books) := by
  constructor
  · intro hne
    have hcond : (Part4.strLower ord == "desc") = false := by
      simpa using hne
    have hunfold : Part4.get_books_sorted (some sf) (some ord) s
        = Part4.sortBy (fun a b => Part4.colLe .colId a b) s.books := by
      simp [Part4.get_books_sorted, h, hcond]
    rw [hunfold]
    constructor
    · have := pairwise_sortBy (fun a b => Part4.colLe .colId a b)
        (by intro a b c hab hbc; simp [Part4.colLe] at *; omega)
        (by intro a b; simp [Part4.colLe]; omega) s.books
      exact this.imp (fun hxy => by simpa [Part4.colLe] using hxy)
    · exact sortBy_perm _ s.books
  · intro heq
    have hcond : (Part4.strLower ord == "desc") = true := by
      simpa using heq
    have hunfold : Part4.get_books_sorted (some sf) (some ord) s
        = Part4.sortBy (fun a b => Part4.colLe .colId b a) s.books := by
      simp [Part4.get_books_sorted, h, hcond]
    rw [hunfold]
    constructor
    · have := pairwise_sortBy (fun a b => Part4.colLe .colId b a)
        (by intro a b c hab hbc; simp [Part4.colLe] at *; omega)
        (by intro a b; simp [Part4.colLe]; omega) s.books
      exact this.imp (fun hxy => by simpa [Part4.colLe] using hxy)
    · exact sortBy_perm _ s.books

/-- Witness for C2 (amended): the fallback at a concrete store, in
both directions. -/
theorem c2_witness :
    ((Part4.get_books_sorted (some "foo") (some "asc") demoStore2).Pairwise
        (fun a b => a.id ≤ b.id)
      ∧ (Part4.get_books_sorted (some "foo") (some "asc") demoStore2).Perm demoStore2.books)
    ∧ ((Part4.get_books_sorted (some "foo") (some "desc") demoStore2).Pairwise
        (fun a b => b.id ≤ a.id)
      ∧ (Part4.get_books_sorted (some "foo") (some "desc") demoStore2).Perm
          demoStore2.books) :=
  ⟨(c2_sorted_fallback demoStore2 "foo" "asc" (by decide)).1 (by decide),
   (c2_sorted_fallback demoStore2 "foo" "desc" (by decide)).2 (by decide)⟩

/-- Arithmetic of the `pages` ceiling used by the pagination claim. -/
theorem pages_ceiling_lt (p pp t : Nat) (h : 1 ≤ pp) :
    p < (t + pp - 1) / pp ↔ p * pp < t := by
  rw [Nat.lt_iff_add_one_le, Nat.le_div_iff_mul_le h, Nat.add_mul, one_mul]
  omega

/-- C3: the paginated books route never returns more than 100 items:
`per_page=200` is clamped to a reported 100, `page` defaults to 1 and
`per_page` to 5 when absent, `total_items` is the table's size, and the
has-next/has-prev flags say whether items remain after this page and
whether the effective page is past the first. -/
theorem c3_pagination (page per_page : Option Int) (s : Part4.Store) :
    (Part4.get_books_paginated page per_page s).books.length ≤ 100
    ∧ (per_page = some 200 → (Part4.get_books_paginated page per_page s).per_page = 100)
    ∧ (page = none → (Part4.get_books_paginated page per_page s).page = 1)
    ∧ (per_page = none → (Part4.get_books_paginated page per_page s).per_page = 5)
    ∧ (Part4.get_books_paginated page per_page s).total_items = s.books.length
    ∧ ((Part4.get_books_paginated page per_page s).has_next = true
        ↔ Part4.effPage page * Part4.effPerPage per_page < s.books.length)
    ∧ ((Part4.get_books_paginated page per_page s).has_prev = true
        ↔ 1 < Part4.effPage page) := by
  have hePP100 : Part4.effPerPage per_page ≤ 100 := by
    simp only [Part4.effPerPage]
    split
    · omega
    · rename_i hpp
      omega
  have hePP1 : 1 ≤ Part4.effPerPage per_page := by
    simp only [Part4.effPerPage]
    split
    · omega
    · rename_i hpp
      omega
  refine ⟨?_, ?_, ?_, ?_, ?_, ?_, ?_⟩
  · simp only [Part4.get_books_paginated, List.length_map, List.length_take]
    exact le_trans (min_le_left _ _) hePP100
  · intro h
    subst h
    simp [Part4.get_books_paginated]
  · intro h
    subst h
    simp [Part4.get_books_paginated]
  · intro h
    subst h
    simp [Part4.get_books_paginated]
  · rfl
  · simp only [Part4.get_books_paginated, decide_eq_true_eq]
    exact pages_ceiling_lt _ _ _ hePP1
  · simp only [Part4.get_books_paginated, decide_eq_true_eq]

/-- Witness for C3: `per_page=200` on a concrete store reports 100,
and absent parameters take their defaults. -/
theorem c3_witness :
    (Part4.get_books_paginated none (some 200) demoStore2).books.length ≤ 100
    ∧ (Part4.get_books_paginated none (some 200) demoStore2).per_page = 100
    ∧ (Part4.get_books_paginated none (some 200) demoStore2).page = 1
    ∧ (Part4.get_books_paginated none none demoStore2).per_page = 5 :=
  ⟨(c3_pagination none (some 200) demoStore2).1,
   (c3_pagination none (some 200) demoStore2).2.1 rfl,
   (c3_pagination none (some 200) demoStore2).2.2.1 rfl,
   (c3_pagination none none demoStore2).2.2.2.1 rfl⟩

/-- Fields of `appliedBook` when the corresponding body field is absent
or present: the id and creation timestamp are never touched, and each
column changes exactly when the body names it. -/
theorem appliedBook_fields (d : Part4.UpdateBookBody) (b : Part4.Book) :
    (Part4.appliedBook d b).id = b.id
    ∧ (Part4.appliedBook d b).created_at = b.created_at
    ∧ (d.title = none → (Part4.appliedBook d b).title = b.title)
    ∧ (∀ t, d.title = some t → (Part4.appliedBook d b).title = t)
    ∧ (d.author_id = none → (Part4.appliedBook d b).author_id = b.author_id)
    ∧ (∀ a, d.author_id = some a → (Part4.appliedBook d b).author_id = a)
    ∧ (d.year = none → (Part4.appliedBook d b).year = b.year)
    ∧ (∀ y, d.year = some y → (Part4.appliedBook d b).year = y)
    ∧ (d.isbn = none → (Part4.appliedBook d b).isbn = b.isbn)
    ∧ (∀ i, d.isbn = some i → (Part4.appliedBook d b).isbn = i) := by
  cases hdt : d.title <;> cases hda : d.author_id <;>
    cases hdy : d.year <;> cases hdi : d.isbn <;>
      simp [Part4.appliedBook, Part4.applyTitle, Part4.applyAuthorId,
        Part4.applyYearIsbn, hdt, hda, hdy, hdi]

/-- C4: partial update of a book.  On a nonexistent target id the route
answers 404 and the store is unchanged.  On an existing book, a
supplied `author_id` naming no author aborts with 404 and nothing
changes; otherwise exactly the supplied fields are overwritten, every
field not named in the body (including `created_at` and the id) keeps
its previous value, and every other row and the author table are
untouched. -/
theorem c4_update_book (s : Part4.Store) (id : Nat) (d : Part4.UpdateBookBody) :
    (Part4.findBook s id = none →
      Part4.update_book id (some d) s = (⟨404, none, some "Book not found"⟩, s))
    ∧ (∀ b, Part4.findBook s id = some b →
        ((∃ a, d.author_id = some a ∧ Part4.findAuthor s a = none) →
          Part4.update_book id (some d) s = (⟨404, none, some "Author not found"⟩, s))
        ∧ ((∀ a, d.author_id = some a → (Part4.findAuthor s a).isSome = true) →
          (Part4.update_book id (some d) s).1.status = 200
          ∧ (Part4.update_book id (some d) s).2.books
              = s.books.map (fun x => if x.id == id then Part4.appliedBook d b else x)
          ∧ (Part4.update_book id (some d) s).2.authors = s.authors
          ∧ (Part4.appliedBook d b).id = b.id
          ∧ (Part4.appliedBook d b).created_at = b.created_at
          ∧ (d.title = none → (Part4.appliedBook d b).title = b.title)
          ∧ (∀ t, d.title = some t → (Part4.appliedBook d b).title = t)
          ∧ (d.author_id = none → (Part4.appliedBook d b).author_id = b.author_id)
          ∧ (∀ a, d.author_id = some a → (Part4.appliedBook d b).author_id = a)
          ∧ (d.year = none → (Part4.appliedBook d b).year = b.year)
          ∧ (∀ y, d.year = some y → (Part4.appliedBook d b).year = y)
          ∧ (d.isbn = none → (Part4.appliedBook d b).isbn = b.isbn)
          ∧ (∀ i, d.isbn = some i → (Part4.appliedBook d b).isbn = i))) := by
  constructor
  · intro h
    simp [Part4.update_book, h]
  · intro b hb
    constructor
    · rintro ⟨a, hda, hfa⟩
      simp [Part4.update_book, hb, hda, hfa]
    · intro hva
      obtain ⟨h1, h2, h3, h4, h5, h6, h7, h8, h9, h10⟩ := appliedBook_fields d b
      cases hda : d.author_id with
      | none =>
        rw [hda] at h5 h6
        refine ⟨?_, ?_, ?_, h1, h2, h3, h4, h5, h6, h7, h8, h9, h10⟩ <;>
          simp [Part4.update_book, hb, hda]
      | some a =>
        obtain ⟨aa, haa⟩ := Option.isSome_iff_exists.mp (hva a hda)
        rw [hda] at h5 h6
        refine ⟨?_, ?_, ?_, h1, h2, h3, h4, h5, h6, h7, h8, h9, h10⟩ <;>
          simp [Part4.update_book, hb, hda, haa]

/-- Witness for C4 at a concrete store: updating title and year of book
1 keeps its isbn and timestamp, and a nonexistent id 99 is a 404
no-op. -/
theorem c4_witness :
    Part4.update_book 99 (some ⟨some "New", some 1, some (some 2020), none⟩) demoStore2
      = (⟨404, none, some "Book not found"⟩, demoStore2)
    ∧ ((Part4.update_book 1 (some ⟨some "New", some 1, some (some 2020), none⟩)
          demoStore2).1.status = 200
      ∧ (Part4.update_book 1 (some ⟨some "New", some 1, some (some 2020), none⟩)
          demoStore2).2.books
          = demoStore2.books.map (fun x =>
              if x.id == 1
              then Part4.appliedBook ⟨some "New", some 1, some (some 2020), none⟩ demoBook1
              else x)
      ∧ (Part4.appliedBook ⟨some "New", some 1, some (some 2020), none⟩ demoBook1).created_at
          = demoBook1.created_at
      ∧ (Part4.appliedBook ⟨some "New", some 1, some (some 2020), none⟩ demoBook1).isbn
          = demoBook1.isbn) := by
  refine ⟨(c4_update_book demoStore2 99 _).1 (by decide), ?_⟩
  have h := ((c4_update_book demoStore2 1
      ⟨some "New", some 1, some (some 2020), none⟩).2 demoBook1 (by decide)).2
    (fun a ha => by cases ha; decide)
  exact ⟨h.1, h.2.1, h.2.2.2.2.1, h.2.2.2.2.2.2.2.2.2.2.2.1 rfl⟩

/-- C6: after a successful `POST /api/books` or `POST /api/authors`
(status 201), fetching the returned id immediately afterwards succeeds
(200) and returns exactly the serialized object the creation response
carried.  The hypotheses say the auto-increment counters are ahead of
every stored id, as the storage engine guarantees. -/
theorem c6_create_then_get (s : Part4.Store) (bd : Part4.CreateBookBody)
    (ad : Part4.CreateAuthorBody)
    (hb : ∀ b ∈ s.books, b.id < s.nextBookId)
    (ha : ∀ a ∈ s.authors, a.id < s.nextAuthorId) :
    ((Part4.create_book (some bd) s).1.status = 201 →
      ∀ dct, (Part4.create_book (some bd) s).1.book = some dct →
        Part4.get_book dct.id (Part4.create_book (some bd) s).2 = ⟨200, some dct, none⟩)
    ∧ ((Part4.create_author (some ad) s).1.status = 201 →
      ∀ dct, (Part4.create_author (some ad) s).1.author = some dct →
        Part4.get_author dct.id (Part4.create_author (some ad) s).2
          = ⟨200, some dct, none⟩) := by
  constructor
  · intro hst dct hdct
    by_cases h1 : (!Part4.truthyStr bd.title || !Part4.truthyNat bd.author_id) = true
    · simp [Part4.create_book, h1] at hst
    · cases h2 : Part4.findAuthor s (bd.author_id.getD 0) with
      | none => simp [Part4.create_book, h1, h2] at hst
      | some a0 =>
        by_cases h3 :
            (Part4.truthyStr bd.isbn && s.books.any (fun b => b.isbn == bd.isbn)) = true
        · simp [Part4.create_book, h1, h2, h3] at hst
        · have hcb : Part4.create_book (some bd) s
              = (⟨201,
                  some (Part4.bookToDict (Part4.storeAfterCreateBook bd s)
                    (Part4.newBookOf bd s)), none⟩,
                 Part4.storeAfterCreateBook bd s) := by
            simp [Part4.create_book, h1, h2, h3]
          rw [hcb] at hdct
          have hdct2 : some (Part4.bookToDict (Part4.storeAfterCreateBook bd s)
              (Part4.newBookOf bd s)) = some dct := hdct
          have hdeq := Option.some.inj hdct2
          subst hdeq
          rw [hcb]
          show Part4.get_book (Part4.bookToDict (Part4.storeAfterCreateBook bd s)
                (Part4.newBookOf bd s)).id (Part4.storeAfterCreateBook bd s)
              = ⟨200, some (Part4.bookToDict (Part4.storeAfterCreateBook bd s)
                  (Part4.newBookOf bd s)), none⟩
          have hid : (Part4.bookToDict (Part4.storeAfterCreateBook bd s)
              (Part4.newBookOf bd s)).id = s.nextBookId := rfl
          have hfind : Part4.findBook (Part4.storeAfterCreateBook bd s) s.nextBookId
              = some (Part4.newBookOf bd s) := by
            simp only [Part4.findBook, Part4.storeAfterCreateBook, List.find?_append]
            have hnone : s.books.find? (fun b => b.id == s.nextBookId) = none :=
              List.find?_eq_none.mpr (fun x hx => by
                simp only [beq_iff_eq]
                exact Nat.ne_of_lt (hb x hx))
            rw [hnone]
            simp [Part4.newBookOf]
          rw [hid]
          simp only [Part4.get_book, hfind]
  · intro hst dct hdct
    by_cases h1 : (!Part4.truthyStr ad.name || !Part4.truthyStr ad.city) = true
    · simp [Part4.create_author, h1] at hst
    · by_cases h2 : (s.authors.any (fun a => a.name == ad.name.getD "")) = true
      · simp [Part4.create_author, h1, h2] at hst
      · have hca : Part4.create_author (some ad) s
            = (⟨201,
                some (Part4.authorToDict (Part4.storeAfterCreateAuthor ad s)
                  (Part4.newAuthorOf ad s)), none⟩,
               Part4.storeAfterCreateAuthor ad s) := by
          simp [Part4.create_author, h1, h2]
        rw [hca] at hdct
        have hdct2 : some (Part4.authorToDict (Part4.storeAfterCreateAuthor ad s)
            (Part4.newAuthorOf ad s)) = some dct := hdct
        have hdeq := Option.some.inj hdct2
        subst hdeq
        rw [hca]
        show Part4.get_author (Part4.authorToDict (Part4.storeAfterCreateAuthor ad s)
              (Part4.newAuthorOf ad s)).id (Part4.storeAfterCreateAuthor ad s)
            = ⟨200, some (Part4.authorToDict (Part4.storeAfterCreateAuthor ad s)
                (Part4.newAuthorOf ad s)), none⟩
        have hid : (Part4.authorToDict (Part4.storeAfterCreateAuthor ad s)
            (Part4.newAuthorOf ad s)).id = s.nextAuthorId := rfl
        have hfind : Part4.findAuthor (Part4.storeAfterCreateAuthor ad s) s.nextAuthorId
            = some (Part4.newAuthorOf ad s) := by
          simp only [Part4.findAuthor, Part4.storeAfterCreateAuthor, List.find?_append]
          have hnone : s.authors.find? (fun a => a.id == s.nextAuthorId) = none :=
            List.find?_eq_none.mpr (fun x hx => by
              simp only [beq_iff_eq]
              exact Nat.ne_of_lt (ha x hx))
          rw [hnone]
          simp [Part4.newAuthorOf]
        rw [hid]
        simp only [Part4.get_author, hfind]

/-- Witness for C6: creating a book and an author in the demo store and
reading them back by the assigned ids. -/
theorem c6_witness :
    Part4.get_book 1 (Part4.create_book (some ⟨some "T", some 1, none, none⟩) demoStore).2
      = ⟨200, some ⟨1, "T", none, none, some (1, "Eric Matthes"), 0⟩, none⟩
    ∧ Part4.get_author 2 (Part4.create_author (some ⟨some "A", some "C"⟩) demoStore).2
      = ⟨200, some ⟨2, "A", "C", []⟩, none⟩ :=
  ⟨(c6_create_then_get demoStore ⟨some "T", some 1, none, none⟩ ⟨some "A", some "C"⟩
      (by decide) (by decide)).1 (by decide)
      ⟨1, "T", none, none, some (1, "Eric Matthes"), 0⟩ (by decide),
   (c6_create_then_get demoStore ⟨some "T", some 1, none, none⟩ ⟨some "A", some "C"⟩
      (by decide) (by decide)).2 (by decide) ⟨2, "A", "C", []⟩ (by decide)⟩
